import Mathlib

/-
  Verification of the Bookipedia repository: four FastAPI variants
  (with-extra-data-1.py .. with-extra-data-4.py) serving books and
  authors joined through a many-to-many association table that carries
  a per-pair `blurb`.  The data model, seed procedure, queries,
  pydantic serialization and route handlers are embedded below, and
  the spec's claims are settled against this embedding.
-/

namespace Bookipedia

/-- Row of the `books` table: `id` (integer primary key), `title` (non-null). -/
structure Book where
  id : Int
  title : String
deriving DecidableEq, Repr

/-- Row of the `authors` table: `id` (integer primary key), `name` (non-null). -/
structure Author where
  id : Int
  name : String
deriving DecidableEq, Repr

/-- Row of the `book_authors` association table: composite primary key
`(book_id, author_id)`, both foreign keys, plus the non-null `blurb`. -/
structure BookAuthor where
  book_id : Int
  author_id : Int
  blurb : String
deriving DecidableEq, Repr

/-- The in-memory SQLite database: the three tables, rows in insertion order. -/
structure DB where
  books : List Book
  authors : List Author
  book_authors : List BookAuthor
deriving DecidableEq, Repr

def emptyDB : DB := ⟨[], [], []⟩

/-- SQLite auto-assigns an INTEGER PRIMARY KEY as (largest existing id) + 1. -/
def nextId (ids : List Int) : Int := ids.foldl max 0 + 1

/-- Insert a book with an auto-assigned id, returning the new db and the id. -/
def insertBook (db : DB) (title : String) : DB × Int :=
  let i := nextId (db.books.map Book.id)
  ({ db with books := db.books ++ [⟨i, title⟩] }, i)

/-- Insert an author with an auto-assigned id, returning the new db and the id. -/
def insertAuthor (db : DB) (name : String) : DB × Int :=
  let i := nextId (db.authors.map Author.id)
  ({ db with authors := db.authors ++ [⟨i, name⟩] }, i)

/-- Insert an association row (explicit foreign keys, as in the seed scripts). -/
def insertAssoc (db : DB) (bid aid : Int) (blurb : String) : DB :=
  { db with book_authors := db.book_authors ++ [⟨bid, aid, blurb⟩] }

/-- The seed procedure shared by every variant: two books, three authors,
then four association rows wired up by the ids the inserts produced. -/
def seedDB : DB :=
  let (db1, b1) := insertBook emptyDB "Dead People Who\x27d Be Influencers Today"
  let (db2, b2) := insertBook db1 "How To Make Friends In Your 30s"
  let (db3, a1) := insertAuthor db2 "Blu Renolds"
  let (db4, a2) := insertAuthor db3 "Chip Egan"
  let (db5, a3) := insertAuthor db4 "Alyssa Wyatt"
  let db6 := insertAssoc db5 b1 a1 "Blue wrote chapter 1"
  let db7 := insertAssoc db6 b1 a2 "Chip wrote chapter 2"
  let db8 := insertAssoc db7 b2 a1 "Blue wrote chapters 1-3"
  insertAssoc db8 b2 a3 "Alyssa wrote chapter 4"

/-- Resolve a book by primary key (the `relationship` / join lookup). -/
def DB.findBook (db : DB) (bid : Int) : Option Book :=
  db.books.find? (fun b => b.id == bid)

/-- Resolve an author by primary key (the `relationship` / join lookup). -/
def DB.findAuthor (db : DB) (aid : Int) : Option Author :=
  db.authors.find? (fun a => a.id == aid)

/-- `Book.authors` relationship: the association rows referencing the book,
in table (insertion) order. -/
def DB.bookAssocs (db : DB) (b : Book) : List BookAuthor :=
  db.book_authors.filter (fun ba => ba.book_id == b.id)

/-- `Author.books` relationship: the association rows referencing the author,
in table (insertion) order. -/
def DB.authorAssocs (db : DB) (a : Author) : List BookAuthor :=
  db.book_authors.filter (fun ba => ba.author_id == a.id)

/-- Every association row references an existing author and an existing book
(the foreign-key invariant of the schema). -/
def DB.fkValid (db : DB) : Prop :=
  ∀ ba ∈ db.book_authors,
    (db.findAuthor ba.author_id).isSome = true ∧ (db.findBook ba.book_id).isSome = true

instance (db : DB) : Decidable db.fkValid := by
  unfold DB.fkValid
  exact inferInstance

/-- Errors a handler can raise: `.one()` raises NoResultFound on zero rows and
MultipleResultsFound on several; pydantic validation or the custom `dict`
serialization can also fail.  None of the variants installs an exception
handler, so every raised error escapes the route handler. -/
inductive AppError where
  | noResultFound
  | multipleResultsFound
  | validationError
deriving DecidableEq, Repr

/-- SQLAlchemy `Query.one()`: exactly one row or an error. -/
def one {α : Type} (xs : List α) : Except AppError α :=
  match xs with
  | [x] => .ok x
  | [] => .error .noResultFound
  | _ => .error .multipleResultsFound

/-- JSON scalar appearing in a response. -/
inductive Prim where
  | num (n : Int)
  | str (s : String)
  | null
deriving DecidableEq, Repr

/-- Value of a field inside a list entry: a scalar, or a nested flat object
(the `author`/`book` sub-object of variant 4 before its custom flattening). -/
inductive EVal where
  | prim (p : Prim)
  | obj (fields : List (String × Prim))
deriving DecidableEq, Repr

/-- One entry of an `authors`/`books` list, keys in serialization order. -/
abbrev Entry := List (String × EVal)

/-- Value of a top-level field: a scalar or the array of list entries. -/
inductive TVal where
  | prim (p : Prim)
  | arr (entries : List Entry)
deriving DecidableEq, Repr

/-- A serialized top-level JSON object, keys in serialization order. -/
abbrev JObj := List (String × TVal)

/-- A response body: one object (singular routes) or an array (list routes). -/
inductive Body where
  | one (r : JObj)
  | many (rs : List JObj)
deriving DecidableEq, Repr

/-- An HTTP response: status code plus optional JSON body. -/
structure HttpResponse where
  status : Nat
  body : Option Body
deriving DecidableEq, Repr

/-- Map an optional function over a list, failing if any element fails
(pydantic validates each list element; one failure fails the whole model). -/
def optMap {α β : Type} (f : α → Option β) : List α → Option (List β)
  | [] => some []
  | x :: xs =>
    match f x, optMap f xs with
    | some y, some ys => some (y :: ys)
    | _, _ => none

/-
  Variant 1 (with-extra-data-1.py): association proxies.  `AuthorBase`
  is populated from a BookAuthor row: `id` from the `author_id` alias,
  `name` through the `author_name` proxy (the linked author's name),
  `blurb` from the row.  Output keys follow field declaration order and
  `response_model_by_alias=False`, so they are id, name, blurb.
  If the proxied author did not exist the proxy access would raise,
  hence the Option result.
-/

def v1AuthorEntry (db : DB) (ba : BookAuthor) : Option Entry :=
  (db.findAuthor ba.author_id).map fun a =>
    [("id", .prim (.num ba.author_id)),
     ("name", .prim (.str a.name)),
     ("blurb", .prim (.str ba.blurb))]

/-- Variant 1 `BookBase` populated from a BookAuthor row on the author side:
id from `book_id`, title through the `book_title` proxy, blurb from the row. -/
def v1BookEntry (db : DB) (ba : BookAuthor) : Option Entry :=
  (db.findBook ba.book_id).map fun b =>
    [("id", .prim (.num ba.book_id)),
     ("title", .prim (.str b.title)),
     ("blurb", .prim (.str ba.blurb))]

/-- Variant 1 `BookSchema` response for one book.  The top-level `blurb`
field (declared on `BookBase`, populated as None on a Book row) is removed
by `response_model_exclude=\x7b'blurb'\x7d`, which applies at the top level only. -/
def v1BookResp (db : DB) (b : Book) : Option JObj :=
  (optMap (v1AuthorEntry db) (db.bookAssocs b)).map fun entries =>
    [("id", .prim (.num b.id)),
     ("title", .prim (.str b.title)),
     ("authors", .arr entries)]

/-- Variant 1 `AuthorSchema` response for one author (top-level blurb excluded). -/
def v1AuthorResp (db : DB) (a : Author) : Option JObj :=
  (optMap (v1BookEntry db) (db.authorAssocs a)).map fun entries =>
    [("id", .prim (.num a.id)),
     ("name", .prim (.str a.name)),
     ("books", .arr entries)]

/-
  Variant 2 (with-extra-data-2.py): view-only descriptors running raw SQL.
  `Book.authors` inner-joins authors with the association rows of the book,
  returning rows carrying (id, name, blurb, book_id); the inner join drops
  a row whose author does not exist.  The pydantic `AuthorBase` then keeps
  only the declared fields id and name — blurb is selected by the SQL but
  dropped by the schema.
-/

def v2AuthorRows (db : DB) (b : Book) : List (Author × BookAuthor) :=
  (db.bookAssocs b).filterMap fun ba =>
    (db.findAuthor ba.author_id).map fun a => (a, ba)

def v2BookRows (db : DB) (a : Author) : List (Book × BookAuthor) :=
  (db.authorAssocs a).filterMap fun ba =>
    (db.findBook ba.book_id).map fun b => (b, ba)

/-- Variant 2 `BookSchema` response: entries carry only id and name. -/
def v2BookResp (db : DB) (b : Book) : JObj :=
  [("id", .prim (.num b.id)),
   ("title", .prim (.str b.title)),
   ("authors", .arr ((v2AuthorRows db b).map fun row =>
      [("id", EVal.prim (.num row.1.id)), ("name", EVal.prim (.str row.1.name))]))]

/-- Variant 2 `AuthorSchema` response: entries carry only id and title. -/
def v2AuthorResp (db : DB) (a : Author) : JObj :=
  [("id", .prim (.num a.id)),
   ("name", .prim (.str a.name)),
   ("books", .arr ((v2BookRows db a).map fun row =>
      [("id", EVal.prim (.num row.1.id)), ("title", EVal.prim (.str row.1.title))]))]

/-
  Variant 3 (with-extra-data-3.py): custom pydantic GetterDict.
  `BookAuthorGetter` serves `id` and `name` from the row's `author`
  relationship and everything else (blurb) from the row itself; a missing
  author would make `getattr(self._obj.author, key)` raise, hence Option.
-/

def v3AuthorEntry (db : DB) (ba : BookAuthor) : Option Entry :=
  (db.findAuthor ba.author_id).map fun a =>
    [("id", .prim (.num a.id)),
     ("name", .prim (.str a.name)),
     ("blurb", .prim (.str ba.blurb))]

/-- Variant 3 `AuthorBookGetter`: id and title from the row's book, blurb
from the row. -/
def v3BookEntry (db : DB) (ba : BookAuthor) : Option Entry :=
  (db.findBook ba.book_id).map fun b =>
    [("id", .prim (.num b.id)),
     ("title", .prim (.str b.title)),
     ("blurb", .prim (.str ba.blurb))]

/-- Variant 3 `BookSchema` response. -/
def v3BookResp (db : DB) (b : Book) : Option JObj :=
  (optMap (v3AuthorEntry db) (db.bookAssocs b)).map fun entries =>
    [("id", .prim (.num b.id)),
     ("title", .prim (.str b.title)),
     ("authors", .arr entries)]

/-- Variant 3 `AuthorSchema` response. -/
def v3AuthorResp (db : DB) (a : Author) : Option JObj :=
  (optMap (v3BookEntry db) (db.authorAssocs a)).map fun entries =>
    [("id", .prim (.num a.id)),
     ("name", .prim (.str a.name)),
     ("books", .arr entries)]

/-
  Variant 4 (with-extra-data-4.py): custom JSON serialization.  Pydantic
  first validates the ORM graph into typed schemas whose list entries hold
  `blurb` plus an Optional nested `author`/`book` sub-object; the schema's
  overridden `dict` then copies the sub-object's identity fields into the
  entry and deletes the sub-object.  `dict` indexes the Optional without a
  None check, so a None sub-object would raise (Option.none here).
-/

structure RelatedAuthorSchema where
  id : Int
  name : String
deriving DecidableEq, Repr

structure BookAuthorSchema where
  blurb : String
  author : Option RelatedAuthorSchema
deriving DecidableEq, Repr

structure BookSchema where
  id : Int
  title : String
  authors : List BookAuthorSchema
deriving DecidableEq, Repr

structure RelatedBookSchema where
  id : Int
  title : String
deriving DecidableEq, Repr

structure AuthorBookSchema where
  blurb : String
  book : Option RelatedBookSchema
deriving DecidableEq, Repr

structure AuthorSchema where
  id : Int
  name : String
  books : List AuthorBookSchema
deriving DecidableEq, Repr

/-- Variant 4: pydantic validation of a fetched Book with its eagerly
loaded `authors` collection and each row's `author` relationship. -/
def v4ValidateBook (db : DB) (b : Book) : BookSchema :=
  { id := b.id, title := b.title,
    authors := (db.bookAssocs b).map fun ba =>
      { blurb := ba.blurb,
        author := (db.findAuthor ba.author_id).map fun a => ⟨a.id, a.name⟩ } }

/-- Variant 4: pydantic validation of a fetched Author with its books. -/
def v4ValidateAuthor (db : DB) (a : Author) : AuthorSchema :=
  { id := a.id, name := a.name,
    books := (db.authorAssocs a).map fun ba =>
      { blurb := ba.blurb,
        book := (db.findBook ba.book_id).map fun b => ⟨b.id, b.title⟩ } }

/-- Variant 4 `BookSchema.dict`: for each entry set id and name from the
nested `author` object (raising if it is None), then delete `author`.
Resulting entry key order: blurb, id, name. -/
def BookSchema.dict (s : BookSchema) : Option JObj :=
  (optMap (fun e => e.author.map fun a =>
      ([("blurb", .prim (.str e.blurb)),
        ("id", .prim (.num a.id)),
        ("name", .prim (.str a.name))] : Entry)) s.authors).map fun entries =>
    [("id", .prim (.num s.id)),
     ("title", .prim (.str s.title)),
     ("authors", .arr entries)]

/-- Variant 4 `AuthorSchema.dict`: symmetric flattening of `book`. -/
def AuthorSchema.dict (s : AuthorSchema) : Option JObj :=
  (optMap (fun e => e.book.map fun b =>
      ([("blurb", .prim (.str e.blurb)),
        ("id", .prim (.num b.id)),
        ("title", .prim (.str b.title))] : Entry)) s.books).map fun entries =>
    [("id", .prim (.num s.id)),
     ("name", .prim (.str s.name)),
     ("books", .arr entries)]

def v4BookResp (db : DB) (b : Book) : Option JObj :=
  (v4ValidateBook db b).dict

def v4AuthorResp (db : DB) (a : Author) : Option JObj :=
  (v4ValidateAuthor db a).dict

/-- The four variant implementations. -/
inductive Variant where
  | v1
  | v2
  | v3
  | v4
deriving DecidableEq, Repr

/-- Serialization of one fetched book under a given variant. -/
def bookRespOf : Variant → DB → Book → Option JObj
  | .v1 => v1BookResp
  | .v2 => fun db b => some (v2BookResp db b)
  | .v3 => v3BookResp
  | .v4 => v4BookResp

/-- Serialization of one fetched author under a given variant. -/
def authorRespOf : Variant → DB → Author → Option JObj
  | .v1 => v1AuthorResp
  | .v2 => fun db a => some (v2AuthorResp db a)
  | .v3 => v3AuthorResp
  | .v4 => v4AuthorResp

/-- Handler body of `GET /books/\x7bid\x7d`: `db.query(Book).where(Book.id == id).one()`
then serialization by the variant's response model. -/
def getBookHandler (v : Variant) (db : DB) (id : Int) : Except AppError Body :=
  match one (db.books.filter (fun b => b.id == id)) with
  | .error e => .error e
  | .ok b =>
    match bookRespOf v db b with
    | some r => .ok (.one r)
    | none => .error .validationError

/-- Handler body of `GET /books`: `db.query(Book).all()` then serialization
of each book. -/
def getBooksHandler (v : Variant) (db : DB) : Except AppError Body :=
  match optMap (bookRespOf v db) db.books with
  | some rs => .ok (.many rs)
  | none => .error .validationError

/-- Handler body of `GET /authors/\x7bid\x7d`. -/
def getAuthorHandler (v : Variant) (db : DB) (id : Int) : Except AppError Body :=
  match one (db.authors.filter (fun a => a.id == id)) with
  | .error e => .error e
  | .ok a =>
    match authorRespOf v db a with
    | some r => .ok (.one r)
    | none => .error .validationError

/-- Handler body of `GET /authors`. -/
def getAuthorsHandler (v : Variant) (db : DB) : Except AppError Body :=
  match optMap (authorRespOf v db) db.authors with
  | some rs => .ok (.many rs)
  | none => .error .validationError

/-- Modelled from the framework's fixed interface: a handler returning
normally yields a 200 response with the serialized body; none of the
variants registers an exception handler, so a raised error propagates to
the server's default handler, which yields a 500 response with no JSON
body. -/
def toResponse : Except AppError Body → HttpResponse
  | .ok b => ⟨200, some b⟩
  | .error _ => ⟨500, none⟩

/-- `GET /books/\x7bid\x7d` as observed over HTTP. -/
def get_book (v : Variant) (db : DB) (id : Int) : HttpResponse :=
  toResponse (getBookHandler v db id)

/-- `GET /books` as observed over HTTP. -/
def get_books (v : Variant) (db : DB) : HttpResponse :=
  toResponse (getBooksHandler v db)

/-- `GET /authors/\x7bid\x7d` as observed over HTTP. -/
def get_author (v : Variant) (db : DB) (id : Int) : HttpResponse :=
  toResponse (getAuthorHandler v db id)

/-- `GET /authors` as observed over HTTP. -/
def get_authors (v : Variant) (db : DB) : HttpResponse :=
  toResponse (getAuthorsHandler v db)

/-
  Request-level model: the four routes of one variant, a request step
  (handlers only issue SELECTs, so the store is returned unchanged), and
  the request-scoped session lifecycle of `get_db`.
-/

/-- A route of the public HTTP surface. -/
inductive Endpoint where
  | bookById (id : Int)
  | allBooks
  | authorById (id : Int)
  | allAuthors
deriving DecidableEq, Repr

/-- The handler body chosen for an endpoint. -/
def handlerOf (v : Variant) (db : DB) : Endpoint → Except AppError Body
  | .bookById id => getBookHandler v db id
  | .allBooks => getBooksHandler v db
  | .authorById id => getAuthorHandler v db id
  | .allAuthors => getAuthorsHandler v db

/-- One request step: every handler reads the store (SELECT queries only),
so the step returns the store unchanged together with the response. -/
def handle (v : Variant) (db : DB) (e : Endpoint) : DB × HttpResponse :=
  (db, toResponse (handlerOf v db e))

/-- Replay a sequence of requests against the store. -/
def runAll (db : DB) : List (Variant × Endpoint) → DB
  | [] => db
  | r :: rs => runAll (handle r.1 db r.2).1 rs

/-- The `get_db` dependency: `db = Session(...)`, `try: yield db` to the
handler, `finally: db.close()`.  Whether the handler returns normally or
raises, the finally clause runs: result passes through and the session is
closed (the Bool). -/
def get_db (act : Except AppError Body) : Except AppError Body × Bool :=
  match act with
  | .ok a => (.ok a, true)
  | .error e => (.error e, true)

/-- Outcome of executing one request through the `get_db` dependency. -/
structure RequestExec where
  response : HttpResponse
  sessionClosed : Bool
deriving DecidableEq, Repr

/-- Execute one request: acquire the session via `get_db`, run the handler
inside the `try`, close in the `finally`, convert the outcome to HTTP. -/
def execRequest (v : Variant) (db : DB) (e : Endpoint) : RequestExec :=
  { response := toResponse (get_db (handlerOf v db e)).1,
    sessionClosed := (get_db (handlerOf v db e)).2 }

/-
  Comparison of responses as JSON values: objects compare as finite maps
  (key order irrelevant), arrays pointwise.
-/

/-- Two list entries agree as key-value maps. -/
def entryEquiv (a b : Entry) : Bool :=
  (a.all fun kv => b.lookup kv.1 == some kv.2) &&
  (b.all fun kv => a.lookup kv.1 == some kv.2)

/-- Two top-level field values agree: equal scalars, or arrays of
map-equal entries in the same order. -/
def tvalEquiv : TVal → TVal → Bool
  | .prim p, .prim q => p == q
  | .arr xs, .arr ys =>
    xs.length == ys.length && (List.zip xs ys).all fun p => entryEquiv p.1 p.2
  | _, _ => false

/-- Two response objects agree as maps. -/
def jobjEquiv (a b : JObj) : Bool :=
  (a.all fun kv =>
    match b.lookup kv.1 with
    | some v => tvalEquiv kv.2 v
    | none => false) &&
  (b.all fun kv =>
    match a.lookup kv.1 with
    | some v => tvalEquiv v kv.2
    | none => false)

/-- Two optional bodies agree. -/
def bodyEquiv : Option Body → Option Body → Bool
  | none, none => true
  | some (.one a), some (.one b) => jobjEquiv a b
  | some (.many xs), some (.many ys) =>
    xs.length == ys.length && (List.zip xs ys).all fun p => jobjEquiv p.1 p.2
  | _, _ => false

/-- Two HTTP responses agree: same status and map-equal JSON bodies. -/
def respEquiv (a b : HttpResponse) : Bool :=
  a.status == b.status && bodyEquiv a.body b.body

/-- Remove the `blurb` key from a list entry. -/
def dropBlurbEntry (e : Entry) : Entry :=
  e.filter fun kv => !(kv.1 == "blurb")

def dropBlurbTVal : TVal → TVal
  | .prim p => .prim p
  | .arr es => .arr (es.map dropBlurbEntry)

def dropBlurbObj (r : JObj) : JObj :=
  r.map fun kv => (kv.1, dropBlurbTVal kv.2)

def dropBlurbBody : Option Body → Option Body
  | some (.one r) => some (.one (dropBlurbObj r))
  | some (.many rs) => some (.many (rs.map dropBlurbObj))
  | none => none

/-- Remove the `blurb` key from every list entry of a response. -/
def dropBlurb (r : HttpResponse) : HttpResponse :=
  ⟨r.status, dropBlurbBody r.body⟩

/-
  Inspection helpers over serialized objects.
-/

/-- The entries of the `authors` list of a response object. -/
def authorsEntries (r : JObj) : List Entry :=
  match r.lookup "authors" with
  | some (.arr es) => es
  | _ => []

/-- The entries of the `books` list of a response object. -/
def booksEntries (r : JObj) : List Entry :=
  match r.lookup "books" with
  | some (.arr es) => es
  | _ => []

/-- All entries of every array-valued field of a response object. -/
def allEntries (r : JObj) : List Entry :=
  r.foldr (fun kv acc =>
    match kv.2 with
    | .arr es => es ++ acc
    | _ => acc) []

/-- An entry value is flat when it is a scalar, not a nested object. -/
def EVal.isFlat : EVal → Bool
  | .prim _ => true
  | .obj _ => false

/-- Name of the author with the given id ("" if absent; used only where
the author is known to exist). -/
def authorNameOf (db : DB) (aid : Int) : String :=
  ((db.findAuthor aid).map Author.name).getD ""

/-- Title of the book with the given id ("" if absent). -/
def bookTitleOf (db : DB) (bid : Int) : String :=
  ((db.findBook bid).map Book.title).getD ""

/-
  Helper lemmas.
-/

theorem optMap_eq_some_map {α β : Type} (f : α → Option β) (d : β) (xs : List α)
    (h : ∀ x ∈ xs, (f x).isSome = true) :
    optMap f xs = some (xs.map fun x => (f x).getD d) := by
  induction xs with
  | nil => rfl
  | cons x xs ih =>
    obtain ⟨y, hy⟩ := Option.isSome_iff_exists.mp (h x (List.mem_cons_self x xs))
    have ihh := ih (fun z hz => h z (List.mem_cons_of_mem x hz))
    simp [optMap, hy, ihh]

theorem optMap_isSome {α β : Type} (f : α → Option β) (xs : List α)
    (h : ∀ x ∈ xs, (f x).isSome = true) :
    (optMap f xs).isSome = true := by
  induction xs with
  | nil => rfl
  | cons x xs ih =>
    obtain ⟨y, hy⟩ := Option.isSome_iff_exists.mp (h x (List.mem_cons_self x xs))
    obtain ⟨ys, hys⟩ := Option.isSome_iff_exists.mp
      (ih (fun z hz => h z (List.mem_cons_of_mem x hz)))
    simp [optMap, hy, hys]

theorem filterMap_eq_map_of_isSome {α β : Type} (f : α → Option β) (d : β) (xs : List α)
    (h : ∀ x ∈ xs, (f x).isSome = true) :
    xs.filterMap f = xs.map fun x => (f x).getD d := by
  induction xs with
  | nil => rfl
  | cons x xs ih =>
    obtain ⟨y, hy⟩ := Option.isSome_iff_exists.mp (h x (List.mem_cons_self x xs))
    have ihh := ih (fun z hz => h z (List.mem_cons_of_mem x hz))
    simp [List.filterMap_cons, hy, ihh]

/-- A successful primary-key lookup returns the author with that id. -/
theorem findAuthor_id {db : DB} {aid : Int} {a : Author}
    (h : db.findAuthor aid = some a) : a.id = aid := by
  unfold DB.findAuthor at h
  simpa using List.find?_some h

/-- A successful primary-key lookup returns the book with that id. -/
theorem findBook_id {db : DB} {bid : Int} {b : Book}
    (h : db.findBook bid = some b) : b.id = bid := by
  unfold DB.findBook at h
  simpa using List.find?_some h

/-- The association rows of a book are association rows of the store. -/
theorem bookAssocs_sub {db : DB} {b : Book} {ba : BookAuthor}
    (h : ba ∈ db.bookAssocs b) : ba ∈ db.book_authors :=
  List.mem_of_mem_filter h

/-- The association rows of an author are association rows of the store. -/
theorem authorAssocs_sub {db : DB} {a : Author} {ba : BookAuthor}
    (h : ba ∈ db.authorAssocs a) : ba ∈ db.book_authors :=
  List.mem_of_mem_filter h

/-
  Canonical entry shapes, used to characterize each variant's output.
-/

/-- Merged author entry (variants 1 and 3): the author's identity fields
plus the pairing's blurb, keys id, name, blurb. -/
def mergedAuthorEntry (db : DB) (ba : BookAuthor) : Entry :=
  [("id", .prim (.num ba.author_id)),
   ("name", .prim (.str (authorNameOf db ba.author_id))),
   ("blurb", .prim (.str ba.blurb))]

/-- Merged book entry (variants 1 and 3): keys id, title, blurb. -/
def mergedBookEntry (db : DB) (ba : BookAuthor) : Entry :=
  [("id", .prim (.num ba.book_id)),
   ("title", .prim (.str (bookTitleOf db ba.book_id))),
   ("blurb", .prim (.str ba.blurb))]

/-- Variant 2 author entry: only the author's identity fields. -/
def plainAuthorEntry (db : DB) (ba : BookAuthor) : Entry :=
  [("id", .prim (.num ba.author_id)),
   ("name", .prim (.str (authorNameOf db ba.author_id)))]

/-- Variant 2 book entry: only the book's identity fields. -/
def plainBookEntry (db : DB) (ba : BookAuthor) : Entry :=
  [("id", .prim (.num ba.book_id)),
   ("title", .prim (.str (bookTitleOf db ba.book_id)))]

/-- Variant 4 author entry after flattening: keys blurb, id, name. -/
def flatAuthorEntry (db : DB) (ba : BookAuthor) : Entry :=
  [("blurb", .prim (.str ba.blurb)),
   ("id", .prim (.num ba.author_id)),
   ("name", .prim (.str (authorNameOf db ba.author_id)))]

/-- Variant 4 book entry after flattening: keys blurb, id, title. -/
def flatBookEntry (db : DB) (ba : BookAuthor) : Entry :=
  [("blurb", .prim (.str ba.blurb)),
   ("id", .prim (.num ba.book_id)),
   ("title", .prim (.str (bookTitleOf db ba.book_id)))]

/-
  Shape lemmas: under the foreign-key invariant each serializer succeeds
  and produces one entry per association row, in fetch order.
-/

theorem v1AuthorEntry_eq {db : DB} {ba : BookAuthor}
    (h : (db.findAuthor ba.author_id).isSome = true) :
    v1AuthorEntry db ba = some (mergedAuthorEntry db ba) := by
  obtain ⟨a, ha⟩ := Option.isSome_iff_exists.mp h
  simp [v1AuthorEntry, mergedAuthorEntry, authorNameOf, ha]

theorem v1BookEntry_eq {db : DB} {ba : BookAuthor}
    (h : (db.findBook ba.book_id).isSome = true) :
    v1BookEntry db ba = some (mergedBookEntry db ba) := by
  obtain ⟨b, hb⟩ := Option.isSome_iff_exists.mp h
  simp [v1BookEntry, mergedBookEntry, bookTitleOf, hb]

theorem v3AuthorEntry_eq {db : DB} {ba : BookAuthor}
    (h : (db.findAuthor ba.author_id).isSome = true) :
    v3AuthorEntry db ba = some (mergedAuthorEntry db ba) := by
  obtain ⟨a, ha⟩ := Option.isSome_iff_exists.mp h
  have hid := findAuthor_id ha
  simp [v3AuthorEntry, mergedAuthorEntry, authorNameOf, ha, hid]

theorem v3BookEntry_eq {db : DB} {ba : BookAuthor}
    (h : (db.findBook ba.book_id).isSome = true) :
    v3BookEntry db ba = some (mergedBookEntry db ba) := by
  obtain ⟨b, hb⟩ := Option.isSome_iff_exists.mp h
  have hid := findBook_id hb
  simp [v3BookEntry, mergedBookEntry, bookTitleOf, hb, hid]

theorem v1BookResp_eq (db : DB) (hfk : db.fkValid) (b : Book) :
    v1BookResp db b = some
      [("id", .prim (.num b.id)),
       ("title", .prim (.str b.title)),
       ("authors", .arr ((db.bookAssocs b).map (mergedAuthorEntry db)))] := by
  have hall : ∀ ba ∈ db.bookAssocs b, (v1AuthorEntry db ba).isSome = true := by
    intro ba hba
    obtain ⟨a, ha⟩ := Option.isSome_iff_exists.mp (hfk ba (bookAssocs_sub hba)).1
    simp [v1AuthorEntry, ha]
  have hmap : ((db.bookAssocs b).map fun ba => (v1AuthorEntry db ba).getD [])
      = (db.bookAssocs b).map (mergedAuthorEntry db) := by
    apply List.map_congr_left
    intro ba hba
    rw [v1AuthorEntry_eq (hfk ba (bookAssocs_sub hba)).1]
    rfl
  rw [v1BookResp, optMap_eq_some_map (v1AuthorEntry db) [] _ hall]
  simp only [Option.map_some']
  rw [hmap]

theorem v1AuthorResp_eq (db : DB) (hfk : db.fkValid) (a : Author) :
    v1AuthorResp db a = some
      [("id", .prim (.num a.id)),
       ("name", .prim (.str a.name)),
       ("books", .arr ((db.authorAssocs a).map (mergedBookEntry db)))] := by
  have hall : ∀ ba ∈ db.authorAssocs a, (v1BookEntry db ba).isSome = true := by
    intro ba hba
    obtain ⟨b, hb⟩ := Option.isSome_iff_exists.mp (hfk ba (authorAssocs_sub hba)).2
    simp [v1BookEntry, hb]
  have hmap : ((db.authorAssocs a).map fun ba => (v1BookEntry db ba).getD [])
      = (db.authorAssocs a).map (mergedBookEntry db) := by
    apply List.map_congr_left
    intro ba hba
    rw [v1BookEntry_eq (hfk ba (authorAssocs_sub hba)).2]
    rfl
  rw [v1AuthorResp, optMap_eq_some_map (v1BookEntry db) [] _ hall]
  simp only [Option.map_some']
  rw [hmap]

theorem v3BookResp_eq (db : DB) (hfk : db.fkValid) (b : Book) :
    v3BookResp db b = some
      [("id", .prim (.num b.id)),
       ("title", .prim (.str b.title)),
       ("authors", .arr ((db.bookAssocs b).map (mergedAuthorEntry db)))] := by
  have hall : ∀ ba ∈ db.bookAssocs b, (v3AuthorEntry db ba).isSome = true := by
    intro ba hba
    obtain ⟨a, ha⟩ := Option.isSome_iff_exists.mp (hfk ba (bookAssocs_sub hba)).1
    simp [v3AuthorEntry, ha]
  have hmap : ((db.bookAssocs b).map fun ba => (v3AuthorEntry db ba).getD [])
      = (db.bookAssocs b).map (mergedAuthorEntry db) := by
    apply List.map_congr_left
    intro ba hba
    rw [v3AuthorEntry_eq (hfk ba (bookAssocs_sub hba)).1]
    rfl
  rw [v3BookResp, optMap_eq_some_map (v3AuthorEntry db) [] _ hall]
  simp only [Option.map_some']
  rw [hmap]

theorem v3AuthorResp_eq (db : DB) (hfk : db.fkValid) (a : Author) :
    v3AuthorResp db a = some
      [("id", .prim (.num a.id)),
       ("name", .prim (.str a.name)),
       ("books", .arr ((db.authorAssocs a).map (mergedBookEntry db)))] := by
  have hall : ∀ ba ∈ db.authorAssocs a, (v3BookEntry db ba).isSome = true := by
    intro ba hba
    obtain ⟨b, hb⟩ := Option.isSome_iff_exists.mp (hfk ba (authorAssocs_sub hba)).2
    simp [v3BookEntry, hb]
  have hmap : ((db.authorAssocs a).map fun ba => (v3BookEntry db ba).getD [])
      = (db.authorAssocs a).map (mergedBookEntry db) := by
    apply List.map_congr_left
    intro ba hba
    rw [v3BookEntry_eq (hfk ba (authorAssocs_sub hba)).2]
    rfl
  rw [v3AuthorResp, optMap_eq_some_map (v3BookEntry db) [] _ hall]
  simp only [Option.map_some']
  rw [hmap]

theorem v2BookResp_eq (db : DB) (hfk : db.fkValid) (b : Book) :
    v2BookResp db b =
      [("id", .prim (.num b.id)),
       ("title", .prim (.str b.title)),
       ("authors", .arr ((db.bookAssocs b).map (plainAuthorEntry db)))] := by
  have hall : ∀ ba ∈ db.bookAssocs b,
      ((db.findAuthor ba.author_id).map fun a => (a, ba)).isSome = true := by
    intro ba hba
    obtain ⟨a, ha⟩ := Option.isSome_iff_exists.mp (hfk ba (bookAssocs_sub hba)).1
    simp [ha]
  have hmap : ((v2AuthorRows db b).map fun row =>
        ([("id", EVal.prim (.num row.1.id)),
          ("name", EVal.prim (.str row.1.name))] : Entry))
      = (db.bookAssocs b).map (plainAuthorEntry db) := by
    rw [v2AuthorRows,
        filterMap_eq_map_of_isSome _ ((⟨0, ""⟩ : Author), (⟨0, 0, ""⟩ : BookAuthor)) _ hall,
        List.map_map]
    apply List.map_congr_left
    intro ba hba
    obtain ⟨a, ha⟩ := Option.isSome_iff_exists.mp (hfk ba (bookAssocs_sub hba)).1
    have hid := findAuthor_id ha
    simp [Function.comp, ha, plainAuthorEntry, authorNameOf, hid]
  rw [v2BookResp, hmap]

theorem v2AuthorResp_eq (db : DB) (hfk : db.fkValid) (a : Author) :
    v2AuthorResp db a =
      [("id", .prim (.num a.id)),
       ("name", .prim (.str a.name)),
       ("books", .arr ((db.authorAssocs a).map (plainBookEntry db)))] := by
  have hall : ∀ ba ∈ db.authorAssocs a,
      ((db.findBook ba.book_id).map fun b => (b, ba)).isSome = true := by
    intro ba hba
    obtain ⟨b, hb⟩ := Option.isSome_iff_exists.mp (hfk ba (authorAssocs_sub hba)).2
    simp [hb]
  have hmap : ((v2BookRows db a).map fun row =>
        ([("id", EVal.prim (.num row.1.id)),
          ("title", EVal.prim (.str row.1.title))] : Entry))
      = (db.authorAssocs a).map (plainBookEntry db) := by
    rw [v2BookRows,
        filterMap_eq_map_of_isSome _ ((⟨0, ""⟩ : Book), (⟨0, 0, ""⟩ : BookAuthor)) _ hall,
        List.map_map]
    apply List.map_congr_left
    intro ba hba
    obtain ⟨b, hb⟩ := Option.isSome_iff_exists.mp (hfk ba (authorAssocs_sub hba)).2
    have hid := findBook_id hb
    simp [Function.comp, hb, plainBookEntry, bookTitleOf, hid]
  rw [v2AuthorResp, hmap]

theorem v4BookResp_eq (db : DB) (hfk : db.fkValid) (b : Book) :
    v4BookResp db b = some
      [("id", .prim (.num b.id)),
       ("title", .prim (.str b.title)),
       ("authors", .arr ((db.bookAssocs b).map (flatAuthorEntry db)))] := by
  have hall : ∀ e ∈ (v4ValidateBook db b).authors,
      (e.author.map fun a =>
        ([("blurb", EVal.prim (.str e.blurb)),
          ("id", EVal.prim (.num a.id)),
          ("name", EVal.prim (.str a.name))] : Entry)).isSome = true := by
    intro e he
    rw [v4ValidateBook] at he
    simp only [List.mem_map] at he
    obtain ⟨ba, hba, rfl⟩ := he
    obtain ⟨a, ha⟩ := Option.isSome_iff_exists.mp (hfk ba (bookAssocs_sub hba)).1
    simp [ha]
  rw [v4BookResp, BookSchema.dict, optMap_eq_some_map _ [] _ hall]
  simp only [Option.map_some']
  have hmap : ((v4ValidateBook db b).authors.map fun e =>
        ((e.author.map fun a =>
          ([("blurb", EVal.prim (.str e.blurb)),
            ("id", EVal.prim (.num a.id)),
            ("name", EVal.prim (.str a.name))] : Entry)).getD []))
      = (db.bookAssocs b).map (flatAuthorEntry db) := by
    rw [v4ValidateBook]
    simp only [List.map_map]
    apply List.map_congr_left
    intro ba hba
    obtain ⟨a, ha⟩ := Option.isSome_iff_exists.mp (hfk ba (bookAssocs_sub hba)).1
    have hid := findAuthor_id ha
    simp [Function.comp, ha, flatAuthorEntry, authorNameOf, hid]
  rw [hmap]
  simp [v4ValidateBook]

theorem v4AuthorResp_eq (db : DB) (hfk : db.fkValid) (a : Author) :
    v4AuthorResp db a = some
      [("id", .prim (.num a.id)),
       ("name", .prim (.str a.name)),
       ("books", .arr ((db.authorAssocs a).map (flatBookEntry db)))] := by
  have hall : ∀ e ∈ (v4ValidateAuthor db a).books,
      (e.book.map fun b =>
        ([("blurb", EVal.prim (.str e.blurb)),
          ("id", EVal.prim (.num b.id)),
          ("title", EVal.prim (.str b.title))] : Entry)).isSome = true := by
    intro e he
    rw [v4ValidateAuthor] at he
    simp only [List.mem_map] at he
    obtain ⟨ba, hba, rfl⟩ := he
    obtain ⟨b, hb⟩ := Option.isSome_iff_exists.mp (hfk ba (authorAssocs_sub hba)).2
    simp [hb]
  rw [v4AuthorResp, AuthorSchema.dict, optMap_eq_some_map _ [] _ hall]
  simp only [Option.map_some']
  have hmap : ((v4ValidateAuthor db a).books.map fun e =>
        ((e.book.map fun b =>
          ([("blurb", EVal.prim (.str e.blurb)),
            ("id", EVal.prim (.num b.id)),
            ("title", EVal.prim (.str b.title))] : Entry)).getD []))
      = (db.authorAssocs a).map (flatBookEntry db) := by
    rw [v4ValidateAuthor]
    simp only [List.map_map]
    apply List.map_congr_left
    intro ba hba
    obtain ⟨b, hb⟩ := Option.isSome_iff_exists.mp (hfk ba (authorAssocs_sub hba)).2
    have hid := findBook_id hb
    simp [Function.comp, hb, flatBookEntry, bookTitleOf, hid]
  rw [hmap]
  simp [v4ValidateAuthor]

/-
  Error-path lemmas and seed facts.
-/

theorem one_of_length_ne_one {α : Type} (xs : List α) (h : xs.length ≠ 1) :
    ∃ e, one xs = Except.error e := by
  match xs with
  | [] => exact ⟨.noResultFound, rfl⟩
  | [x] => simp at h
  | x :: y :: t => exact ⟨.multipleResultsFound, rfl⟩

/-- A singular book lookup matching zero or several rows yields a raised
error, surfaced as a 500 response without a body. -/
theorem get_book_error (v : Variant) (db : DB) (id : Int)
    (h : (db.books.filter (fun b => b.id == id)).length ≠ 1) :
    get_book v db id = ⟨500, none⟩ := by
  obtain ⟨e, he⟩ := one_of_length_ne_one _ h
  simp [get_book, getBookHandler, he, toResponse]

/-- A singular author lookup matching zero or several rows yields a raised
error, surfaced as a 500 response without a body. -/
theorem get_author_error (v : Variant) (db : DB) (id : Int)
    (h : (db.authors.filter (fun a => a.id == id)).length ≠ 1) :
    get_author v db id = ⟨500, none⟩ := by
  obtain ⟨e, he⟩ := one_of_length_ne_one _ h
  simp [get_author, getAuthorHandler, he, toResponse]

theorem seedDB_books_eq :
    seedDB.books = [⟨1, "Dead People Who\x27d Be Influencers Today"⟩,
                    ⟨2, "How To Make Friends In Your 30s"⟩] := by decide

theorem seedDB_authors_eq :
    seedDB.authors = [⟨1, "Blu Renolds"⟩, ⟨2, "Chip Egan"⟩, ⟨3, "Alyssa Wyatt"⟩] := by
  decide

theorem seed_books_filter_nil (id : Int) (h1 : id ≠ 1) (h2 : id ≠ 2) :
    seedDB.books.filter (fun b => b.id == id) = [] := by
  have e1 : ((1 : Int) == id) = false := beq_eq_false_iff_ne.mpr (Ne.symm h1)
  have e2 : ((2 : Int) == id) = false := beq_eq_false_iff_ne.mpr (Ne.symm h2)
  rw [seedDB_books_eq]
  simp [List.filter, e1, e2]

theorem seed_authors_filter_nil (id : Int) (h1 : id ≠ 1) (h2 : id ≠ 2) (h3 : id ≠ 3) :
    seedDB.authors.filter (fun a => a.id == id) = [] := by
  have e1 : ((1 : Int) == id) = false := beq_eq_false_iff_ne.mpr (Ne.symm h1)
  have e2 : ((2 : Int) == id) = false := beq_eq_false_iff_ne.mpr (Ne.symm h2)
  have e3 : ((3 : Int) == id) = false := beq_eq_false_iff_ne.mpr (Ne.symm h3)
  rw [seedDB_authors_eq]
  simp [List.filter, e1, e2, e3]

/-
  Extraction and cleanliness lemmas about the canonical shapes.
-/

theorem authorsEntries_book (x y : TVal) (es : List Entry) :
    authorsEntries [("id", x), ("title", y), ("authors", TVal.arr es)] = es := rfl

theorem booksEntries_author (x y : TVal) (es : List Entry) :
    booksEntries [("id", x), ("name", y), ("books", TVal.arr es)] = es := rfl

theorem allEntries_book (x y : TVal) (es : List Entry)
    (hx : ∀ l, x ≠ .arr l) (hy : ∀ l, y ≠ .arr l) :
    allEntries [("id", x), ("title", y), ("authors", TVal.arr es)] = es := by
  cases x with
  | prim p =>
    cases y with
    | prim q => simp [allEntries]
    | arr l => exact absurd rfl (hy l)
  | arr l => exact absurd rfl (hx l)

theorem allEntries_author (x y : TVal) (es : List Entry)
    (hx : ∀ l, x ≠ .arr l) (hy : ∀ l, y ≠ .arr l) :
    allEntries [("id", x), ("name", y), ("books", TVal.arr es)] = es := by
  cases x with
  | prim p =>
    cases y with
    | prim q => simp [allEntries]
    | arr l => exact absurd rfl (hy l)
  | arr l => exact absurd rfl (hx l)

theorem mergedAuthorEntry_clean (db : DB) (ba : BookAuthor) :
    (mergedAuthorEntry db ba).lookup "book_id" = none ∧
    (mergedAuthorEntry db ba).lookup "author_id" = none ∧
    (mergedAuthorEntry db ba).lookup "author" = none ∧
    (mergedAuthorEntry db ba).lookup "book" = none ∧
    ∀ kv ∈ mergedAuthorEntry db ba, kv.2.isFlat = true := by
  refine ⟨rfl, rfl, rfl, rfl, ?_⟩
  intro kv hkv
  simp [mergedAuthorEntry] at hkv
  rcases hkv with rfl | rfl | rfl <;> rfl

theorem mergedBookEntry_clean (db : DB) (ba : BookAuthor) :
    (mergedBookEntry db ba).lookup "book_id" = none ∧
    (mergedBookEntry db ba).lookup "author_id" = none ∧
    (mergedBookEntry db ba).lookup "author" = none ∧
    (mergedBookEntry db ba).lookup "book" = none ∧
    ∀ kv ∈ mergedBookEntry db ba, kv.2.isFlat = true := by
  refine ⟨rfl, rfl, rfl, rfl, ?_⟩
  intro kv hkv
  simp [mergedBookEntry] at hkv
  rcases hkv with rfl | rfl | rfl <;> rfl

theorem plainAuthorEntry_clean (db : DB) (ba : BookAuthor) :
    (plainAuthorEntry db ba).lookup "book_id" = none ∧
    (plainAuthorEntry db ba).lookup "author_id" = none ∧
    (plainAuthorEntry db ba).lookup "author" = none ∧
    (plainAuthorEntry db ba).lookup "book" = none ∧
    ∀ kv ∈ plainAuthorEntry db ba, kv.2.isFlat = true := by
  refine ⟨rfl, rfl, rfl, rfl, ?_⟩
  intro kv hkv
  simp [plainAuthorEntry] at hkv
  rcases hkv with rfl | rfl <;> rfl

theorem plainBookEntry_clean (db : DB) (ba : BookAuthor) :
    (plainBookEntry db ba).lookup "book_id" = none ∧
    (plainBookEntry db ba).lookup "author_id" = none ∧
    (plainBookEntry db ba).lookup "author" = none ∧
    (plainBookEntry db ba).lookup "book" = none ∧
    ∀ kv ∈ plainBookEntry db ba, kv.2.isFlat = true := by
  refine ⟨rfl, rfl, rfl, rfl, ?_⟩
  intro kv hkv
  simp [plainBookEntry] at hkv
  rcases hkv with rfl | rfl <;> rfl

theorem flatAuthorEntry_clean (db : DB) (ba : BookAuthor) :
    (flatAuthorEntry db ba).lookup "book_id" = none ∧
    (flatAuthorEntry db ba).lookup "author_id" = none ∧
    (flatAuthorEntry db ba).lookup "author" = none ∧
    (flatAuthorEntry db ba).lookup "book" = none ∧
    ∀ kv ∈ flatAuthorEntry db ba, kv.2.isFlat = true := by
  refine ⟨rfl, rfl, rfl, rfl, ?_⟩
  intro kv hkv
  simp [flatAuthorEntry] at hkv
  rcases hkv with rfl | rfl | rfl <;> rfl

theorem flatBookEntry_clean (db : DB) (ba : BookAuthor) :
    (flatBookEntry db ba).lookup "book_id" = none ∧
    (flatBookEntry db ba).lookup "author_id" = none ∧
    (flatBookEntry db ba).lookup "author" = none ∧
    (flatBookEntry db ba).lookup "book" = none ∧
    ∀ kv ∈ flatBookEntry db ba, kv.2.isFlat = true := by
  refine ⟨rfl, rfl, rfl, rfl, ?_⟩
  intro kv hkv
  simp [flatBookEntry] at hkv
  rcases hkv with rfl | rfl | rfl <;> rfl

/-- Zipping a mapped list with its source pairs each image with its source. -/
theorem zip_map_self {α β : Type} (f : α → β) (l : List α) :
    (l.map f).zip l = l.map fun x => (f x, x) := by
  have h := List.zip_map' f id l
  simpa using h

/-
  Claim theorems.
-/

/-- C1 counterexample: the claim says a singular lookup of a nonexistent id
fails with a NotFound client (4xx) error.  In the code, every variant's
`GET /books/999` raises an unhandled NoResultFound from `.one()` and
surfaces as a 500 server error, which is not a client error status. -/
theorem spec_C1_counterexample :
    (get_book .v1 seedDB 999).status = 500 ∧
    (get_book .v2 seedDB 999).status = 500 ∧
    (get_book .v3 seedDB 999).status = 500 ∧
    (get_book .v4 seedDB 999).status = 500 ∧
    (get_author .v1 seedDB 999).status = 500 ∧
    ¬(400 ≤ (get_book .v1 seedDB 999).status ∧ (get_book .v1 seedDB 999).status < 500) := by
  decide

/-- C1 (amended): for every variant, a singular lookup whose id matches
zero rows (or more than one row) fails with the `.one()` exception,
surfaced as a 500 server error response with no body — an error rather
than an empty/null 200 body, but a server error, not a NotFound client
error. -/
theorem spec_C1 (v : Variant) (db : DB) (id : Int) :
    ((db.books.filter (fun b => b.id == id)).length ≠ 1 →
      get_book v db id = ⟨500, none⟩) ∧
    ((db.authors.filter (fun a => a.id == id)).length ≠ 1 →
      get_author v db id = ⟨500, none⟩) :=
  ⟨fun h => get_book_error v db id h, fun h => get_author_error v db id h⟩

/-- C1 witness: id 999 matches zero book rows and the response is 500/no body. -/
theorem spec_C1_witness :
    (seedDB.books.filter (fun b => b.id == (999 : Int))).length ≠ 1 ∧
    get_book .v1 seedDB 999 = ⟨500, none⟩ :=
  ⟨by decide, (spec_C1 .v1 seedDB 999).1 (by decide)⟩

/-- C5: the seed procedure produces exactly 2 books, 3 authors and 4
association rows with precisely the literal titles, names and blurbs of
the source, books 1 and 2 each paired with their authors as stated. -/
theorem spec_C5 :
    seedDB.books.length = 2 ∧ seedDB.authors.length = 3 ∧
    seedDB.book_authors.length = 4 ∧
    seedDB.books = [⟨1, "Dead People Who\x27d Be Influencers Today"⟩,
                    ⟨2, "How To Make Friends In Your 30s"⟩] ∧
    seedDB.authors = [⟨1, "Blu Renolds"⟩, ⟨2, "Chip Egan"⟩, ⟨3, "Alyssa Wyatt"⟩] ∧
    seedDB.book_authors = [⟨1, 1, "Blue wrote chapter 1"⟩,
                           ⟨1, 2, "Chip wrote chapter 2"⟩,
                           ⟨2, 1, "Blue wrote chapters 1-3"⟩,
                           ⟨2, 3, "Alyssa wrote chapter 4"⟩] := by
  decide

/-- C8: every GET is a pure read.  A request step leaves the store
unchanged, any request history leaves the store at its seeded value, and
re-issuing the same GET after any history returns the identical response. -/
theorem spec_C8 (v : Variant) (db : DB) (e : Endpoint)
    (hist : List (Variant × Endpoint)) :
    (handle v db e).1 = db ∧
    runAll db hist = db ∧
    (handle v (runAll db hist) e).2 = (handle v db e).2 := by
  have hrun : ∀ (l : List (Variant × Endpoint)) (d : DB), runAll d l = d := by
    intro l
    induction l with
    | nil => intro d; rfl
    | cons r rs ih => intro d; simpa [runAll] using ih d
  exact ⟨rfl, hrun hist db, by rw [hrun hist db]⟩

/-- C9: the session acquired by the `get_db` dependency is closed on every
exit path of every request — both when the handler returns normally and
when it raises. -/
theorem spec_C9 (v : Variant) (db : DB) (e : Endpoint) :
    (execRequest v db e).sessionClosed = true := by
  cases h : handlerOf v db e <;> simp [execRequest, get_db, h]

/-- C10: in variant 4 the custom `dict` indexes the Optional `author`/`book`
sub-object without a None check; under the foreign-key invariant the None
branch is unreachable (every validated entry's sub-object is present) and
serialization is total for every entity the endpoints fetch. -/
theorem spec_C10 (db : DB) (hfk : db.fkValid) :
    (∀ b ∈ db.books, ∀ e ∈ (v4ValidateBook db b).authors, e.author.isSome = true) ∧
    (∀ b ∈ db.books, ((v4ValidateBook db b).dict).isSome = true) ∧
    (∀ a ∈ db.authors, ∀ e ∈ (v4ValidateAuthor db a).books, e.book.isSome = true) ∧
    (∀ a ∈ db.authors, ((v4ValidateAuthor db a).dict).isSome = true) := by
  refine ⟨?_, ?_, ?_, ?_⟩
  · intro b _ e he
    rw [v4ValidateBook] at he
    simp only [List.mem_map] at he
    obtain ⟨ba, hba, rfl⟩ := he
    obtain ⟨a, ha⟩ := Option.isSome_iff_exists.mp (hfk ba (bookAssocs_sub hba)).1
    simp [ha]
  · intro b _
    have h := v4BookResp_eq db hfk b
    unfold v4BookResp at h
    rw [h]
    rfl
  · intro a _ e he
    rw [v4ValidateAuthor] at he
    simp only [List.mem_map] at he
    obtain ⟨ba, hba, rfl⟩ := he
    obtain ⟨b, hb⟩ := Option.isSome_iff_exists.mp (hfk ba (authorAssocs_sub hba)).2
    simp [hb]
  · intro a _
    have h := v4AuthorResp_eq db hfk a
    unfold v4AuthorResp at h
    rw [h]
    rfl

/-- C10 witness: the seeded store satisfies the foreign-key invariant and
serializing seeded book 1 under variant 4 succeeds. -/
theorem spec_C10_witness :
    seedDB.fkValid ∧
    ((v4ValidateBook seedDB ⟨1, "Dead People Who\x27d Be Influencers Today"⟩).dict).isSome
      = true :=
  ⟨by decide,
   (spec_C10 seedDB (by decide)).2.1
     ⟨1, "Dead People Who\x27d Be Influencers Today"⟩ (by decide)⟩

/-- C2 counterexample: the claim says every Book response's `authors`
entries contain id, name and blurb in all four variants.  In variant 2 the
nested pydantic schema declares only id and name, so the blurbs selected
by the raw SQL are dropped: every entry of `GET /books/1` lacks `blurb`. -/
theorem spec_C2_counterexample :
    get_book .v2 seedDB 1 =
      ⟨200, some (.one
        [("id", .prim (.num 1)),
         ("title", .prim (.str "Dead People Who\x27d Be Influencers Today")),
         ("authors", .arr
           [[("id", .prim (.num 1)), ("name", .prim (.str "Blu Renolds"))],
            [("id", .prim (.num 2)), ("name", .prim (.str "Chip Egan"))]])])⟩ ∧
    (match (get_book .v2 seedDB 1).body with
     | some (.one r) => (authorsEntries r).all fun e => e.lookup "blurb" == none
     | _ => false) = true := by
  decide

/-- C2 (amended): in variants 1, 3 and 4, every Book response's `authors`
list has exactly one entry per association row referencing the book, each
a flat object containing `id`, `name` and `blurb` (symmetrically `books`
entries contain `id`, `title`, `blurb`); in variant 2 the entries are one
per association row but contain only the identity fields — `blurb` is
absent. -/
theorem spec_C2 (db : DB) (hfk : db.fkValid) :
    (∀ b ∈ db.books, ∀ r : JObj,
      v1BookResp db b = some r ∨ v3BookResp db b = some r ∨ v4BookResp db b = some r →
      (authorsEntries r).length = (db.bookAssocs b).length ∧
      ∀ e ∈ authorsEntries r,
        (e.lookup "id").isSome = true ∧ (e.lookup "name").isSome = true ∧
        (e.lookup "blurb").isSome = true) ∧
    (∀ a ∈ db.authors, ∀ r : JObj,
      v1AuthorResp db a = some r ∨ v3AuthorResp db a = some r ∨ v4AuthorResp db a = some r →
      (booksEntries r).length = (db.authorAssocs a).length ∧
      ∀ e ∈ booksEntries r,
        (e.lookup "id").isSome = true ∧ (e.lookup "title").isSome = true ∧
        (e.lookup "blurb").isSome = true) ∧
    (∀ b ∈ db.books,
      (authorsEntries (v2BookResp db b)).length = (db.bookAssocs b).length ∧
      ∀ e ∈ authorsEntries (v2BookResp db b),
        (e.lookup "id").isSome = true ∧ (e.lookup "name").isSome = true ∧
        e.lookup "blurb" = none) ∧
    (∀ a ∈ db.authors,
      (booksEntries (v2AuthorResp db a)).length = (db.authorAssocs a).length ∧
      ∀ e ∈ booksEntries (v2AuthorResp db a),
        (e.lookup "id").isSome = true ∧ (e.lookup "title").isSome = true ∧
        e.lookup "blurb" = none) := by
  refine ⟨?_, ?_, ?_, ?_⟩
  · intro b _ r hr
    rcases hr with h | h | h
    · rw [v1BookResp_eq db hfk b] at h
      injection h with h
      subst h
      rw [authorsEntries_book]
      refine ⟨List.length_map _ _, ?_⟩
      intro e he
      obtain ⟨ba, hba, rfl⟩ := List.mem_map.mp he
      exact ⟨rfl, rfl, rfl⟩
    · rw [v3BookResp_eq db hfk b] at h
      injection h with h
      subst h
      rw [authorsEntries_book]
      refine ⟨List.length_map _ _, ?_⟩
      intro e he
      obtain ⟨ba, hba, rfl⟩ := List.mem_map.mp he
      exact ⟨rfl, rfl, rfl⟩
    · rw [v4BookResp_eq db hfk b] at h
      injection h with h
      subst h
      rw [authorsEntries_book]
      refine ⟨List.length_map _ _, ?_⟩
      intro e he
      obtain ⟨ba, hba, rfl⟩ := List.mem_map.mp he
      exact ⟨rfl, rfl, rfl⟩
  · intro a _ r hr
    rcases hr with h | h | h
    · rw [v1AuthorResp_eq db hfk a] at h
      injection h with h
      subst h
      rw [booksEntries_author]
      refine ⟨List.length_map _ _, ?_⟩
      intro e he
      obtain ⟨ba, hba, rfl⟩ := List.mem_map.mp he
      exact ⟨rfl, rfl, rfl⟩
    · rw [v3AuthorResp_eq db hfk a] at h
      injection h with h
      subst h
      rw [booksEntries_author]
      refine ⟨List.length_map _ _, ?_⟩
      intro e he
      obtain ⟨ba, hba, rfl⟩ := List.mem_map.mp he
      exact ⟨rfl, rfl, rfl⟩
    · rw [v4AuthorResp_eq db hfk a] at h
      injection h with h
      subst h
      rw [booksEntries_author]
      refine ⟨List.length_map _ _, ?_⟩
      intro e he
      obtain ⟨ba, hba, rfl⟩ := List.mem_map.mp he
      exact ⟨rfl, rfl, rfl⟩
  · intro b _
    rw [v2BookResp_eq db hfk b, authorsEntries_book]
    refine ⟨List.length_map _ _, ?_⟩
    intro e he
    obtain ⟨ba, hba, rfl⟩ := List.mem_map.mp he
    exact ⟨rfl, rfl, rfl⟩
  · intro a _
    rw [v2AuthorResp_eq db hfk a, booksEntries_author]
    refine ⟨List.length_map _ _, ?_⟩
    intro e he
    obtain ⟨ba, hba, rfl⟩ := List.mem_map.mp he
    exact ⟨rfl, rfl, rfl⟩

/-- C2 witness: the variant-1 response for seeded book 1 has one entry per
association and each entry carries id, name and blurb. -/
theorem spec_C2_witness :
    seedDB.fkValid ∧
    ((authorsEntries
        [("id", .prim (.num 1)),
         ("title", .prim (.str "Dead People Who\x27d Be Influencers Today")),
         ("authors", .arr
           [[("id", .prim (.num 1)), ("name", .prim (.str "Blu Renolds")),
             ("blurb", .prim (.str "Blue wrote chapter 1"))],
            [("id", .prim (.num 2)), ("name", .prim (.str "Chip Egan")),
             ("blurb", .prim (.str "Chip wrote chapter 2"))]])]).length
      = (seedDB.bookAssocs ⟨1, "Dead People Who\x27d Be Influencers Today"⟩).length ∧
     ∀ e ∈ authorsEntries
        [("id", .prim (.num 1)),
         ("title", .prim (.str "Dead People Who\x27d Be Influencers Today")),
         ("authors", .arr
           [[("id", .prim (.num 1)), ("name", .prim (.str "Blu Renolds")),
             ("blurb", .prim (.str "Blue wrote chapter 1"))],
            [("id", .prim (.num 2)), ("name", .prim (.str "Chip Egan")),
             ("blurb", .prim (.str "Chip wrote chapter 2"))]])],
        (e.lookup "id").isSome = true ∧ (e.lookup "name").isSome = true ∧
        (e.lookup "blurb").isSome = true) :=
  ⟨by decide,
   (spec_C2 seedDB (by decide)).1
     ⟨1, "Dead People Who\x27d Be Influencers Today"⟩ (by decide)
     [("id", .prim (.num 1)),
      ("title", .prim (.str "Dead People Who\x27d Be Influencers Today")),
      ("authors", .arr
        [[("id", .prim (.num 1)), ("name", .prim (.str "Blu Renolds")),
          ("blurb", .prim (.str "Blue wrote chapter 1"))],
         [("id", .prim (.num 2)), ("name", .prim (.str "Chip Egan")),
          ("blurb", .prim (.str "Chip wrote chapter 2"))]])]
     (Or.inl (by decide))⟩

/-- C3: wherever a list entry carries a `blurb` (variants 1, 3 and 4), the
entry aligned with the i-th association row carries that row's own blurb
and that row's related-entity id — never the blurb of another pairing of
the same entity. -/
theorem spec_C3 (db : DB) (hfk : db.fkValid) :
    (∀ b ∈ db.books, ∀ r : JObj,
      v1BookResp db b = some r ∨ v3BookResp db b = some r ∨ v4BookResp db b = some r →
      (authorsEntries r).length = (db.bookAssocs b).length ∧
      ∀ p ∈ (authorsEntries r).zip (db.bookAssocs b),
        p.1.lookup "blurb" = some (.prim (.str p.2.blurb)) ∧
        p.1.lookup "id" = some (.prim (.num p.2.author_id))) ∧
    (∀ a ∈ db.authors, ∀ r : JObj,
      v1AuthorResp db a = some r ∨ v3AuthorResp db a = some r ∨ v4AuthorResp db a = some r →
      (booksEntries r).length = (db.authorAssocs a).length ∧
      ∀ p ∈ (booksEntries r).zip (db.authorAssocs a),
        p.1.lookup "blurb" = some (.prim (.str p.2.blurb)) ∧
        p.1.lookup "id" = some (.prim (.num p.2.book_id))) := by
  constructor
  · intro b _ r hr
    rcases hr with h | h | h
    · rw [v1BookResp_eq db hfk b] at h
      injection h with h
      subst h
      rw [authorsEntries_book]
      refine ⟨List.length_map _ _, ?_⟩
      intro p hp
      rw [zip_map_self] at hp
      obtain ⟨ba, hba, rfl⟩ := List.mem_map.mp hp
      exact ⟨rfl, rfl⟩
    · rw [v3BookResp_eq db hfk b] at h
      injection h with h
      subst h
      rw [authorsEntries_book]
      refine ⟨List.length_map _ _, ?_⟩
      intro p hp
      rw [zip_map_self] at hp
      obtain ⟨ba, hba, rfl⟩ := List.mem_map.mp hp
      exact ⟨rfl, rfl⟩
    · rw [v4BookResp_eq db hfk b] at h
      injection h with h
      subst h
      rw [authorsEntries_book]
      refine ⟨List.length_map _ _, ?_⟩
      intro p hp
      rw [zip_map_self] at hp
      obtain ⟨ba, hba, rfl⟩ := List.mem_map.mp hp
      exact ⟨rfl, rfl⟩
  · intro a _ r hr
    rcases hr with h | h | h
    · rw [v1AuthorResp_eq db hfk a] at h
      injection h with h
      subst h
      rw [booksEntries_author]
      refine ⟨List.length_map _ _, ?_⟩
      intro p hp
      rw [zip_map_self] at hp
      obtain ⟨ba, hba, rfl⟩ := List.mem_map.mp hp
      exact ⟨rfl, rfl⟩
    · rw [v3AuthorResp_eq db hfk a] at h
      injection h with h
      subst h
      rw [booksEntries_author]
      refine ⟨List.length_map _ _, ?_⟩
      intro p hp
      rw [zip_map_self] at hp
      obtain ⟨ba, hba, rfl⟩ := List.mem_map.mp hp
      exact ⟨rfl, rfl⟩
    · rw [v4AuthorResp_eq db hfk a] at h
      injection h with h
      subst h
      rw [booksEntries_author]
      refine ⟨List.length_map _ _, ?_⟩
      intro p hp
      rw [zip_map_self] at hp
      obtain ⟨ba, hba, rfl⟩ := List.mem_map.mp hp
      exact ⟨rfl, rfl⟩

/-- C3 witness: Author 1 participates in two associations with different
blurbs; in the variant-1 response each `books` entry carries the blurb of
its own pairing. -/
theorem spec_C3_witness :
    seedDB.fkValid ∧
    ((booksEntries
        [("id", .prim (.num 1)),
         ("name", .prim (.str "Blu Renolds")),
         ("books", .arr
           [[("id", .prim (.num 1)),
             ("title", .prim (.str "Dead People Who\x27d Be Influencers Today")),
             ("blurb", .prim (.str "Blue wrote chapter 1"))],
            [("id", .prim (.num 2)),
             ("title", .prim (.str "How To Make Friends In Your 30s")),
             ("blurb", .prim (.str "Blue wrote chapters 1-3"))]])]).length
      = (seedDB.authorAssocs ⟨1, "Blu Renolds"⟩).length ∧
     ∀ p ∈ (booksEntries
        [("id", .prim (.num 1)),
         ("name", .prim (.str "Blu Renolds")),
         ("books", .arr
           [[("id", .prim (.num 1)),
             ("title", .prim (.str "Dead People Who\x27d Be Influencers Today")),
             ("blurb", .prim (.str "Blue wrote chapter 1"))],
            [("id", .prim (.num 2)),
             ("title", .prim (.str "How To Make Friends In Your 30s")),
             ("blurb", .prim (.str "Blue wrote chapters 1-3"))]])]).zip
          (seedDB.authorAssocs ⟨1, "Blu Renolds"⟩),
        p.1.lookup "blurb" = some (.prim (.str p.2.blurb)) ∧
        p.1.lookup "id" = some (.prim (.num p.2.book_id))) :=
  ⟨by decide,
   (spec_C3 seedDB (by decide)).2 ⟨1, "Blu Renolds"⟩ (by decide)
     [("id", .prim (.num 1)),
      ("name", .prim (.str "Blu Renolds")),
      ("books", .arr
        [[("id", .prim (.num 1)),
          ("title", .prim (.str "Dead People Who\x27d Be Influencers Today")),
          ("blurb", .prim (.str "Blue wrote chapter 1"))],
         [("id", .prim (.num 2)),
          ("title", .prim (.str "How To Make Friends In Your 30s")),
          ("blurb", .prim (.str "Blue wrote chapters 1-3"))]])]
     (Or.inl (by decide))⟩

/-- C6: in every variant, no list entry of any response contains the
association's foreign-key columns (`book_id`, `author_id`) and none
contains a nested `author`/`book` association sub-object; every entry
field is a flat scalar merged from the association and the related
entity. -/
theorem spec_C6 (db : DB) (hfk : db.fkValid) (v : Variant) :
    (∀ b ∈ db.books, ∀ r : JObj, bookRespOf v db b = some r →
      ∀ e ∈ allEntries r,
        e.lookup "book_id" = none ∧ e.lookup "author_id" = none ∧
        e.lookup "author" = none ∧ e.lookup "book" = none ∧
        ∀ kv ∈ e, kv.2.isFlat = true) ∧
    (∀ a ∈ db.authors, ∀ r : JObj, authorRespOf v db a = some r →
      ∀ e ∈ allEntries r,
        e.lookup "book_id" = none ∧ e.lookup "author_id" = none ∧
        e.lookup "author" = none ∧ e.lookup "book" = none ∧
        ∀ kv ∈ e, kv.2.isFlat = true) := by
  cases v
  case v1 =>
    constructor
    · intro b _ r hr
      simp only [bookRespOf] at hr
      rw [v1BookResp_eq db hfk b] at hr
      injection hr with hr
      subst hr
      rw [allEntries_book _ _ _ (fun l h => TVal.noConfusion h) (fun l h => TVal.noConfusion h)]
      intro e he
      obtain ⟨ba, hba, rfl⟩ := List.mem_map.mp he
      exact mergedAuthorEntry_clean db ba
    · intro a _ r hr
      simp only [authorRespOf] at hr
      rw [v1AuthorResp_eq db hfk a] at hr
      injection hr with hr
      subst hr
      rw [allEntries_author _ _ _ (fun l h => TVal.noConfusion h) (fun l h => TVal.noConfusion h)]
      intro e he
      obtain ⟨ba, hba, rfl⟩ := List.mem_map.mp he
      exact mergedBookEntry_clean db ba
  case v2 =>
    constructor
    · intro b _ r hr
      simp only [bookRespOf] at hr
      injection hr with hr
      subst hr
      rw [v2BookResp_eq db hfk b,
          allEntries_book _ _ _ (fun l h => TVal.noConfusion h) (fun l h => TVal.noConfusion h)]
      intro e he
      obtain ⟨ba, hba, rfl⟩ := List.mem_map.mp he
      exact plainAuthorEntry_clean db ba
    · intro a _ r hr
      simp only [authorRespOf] at hr
      injection hr with hr
      subst hr
      rw [v2AuthorResp_eq db hfk a,
          allEntries_author _ _ _ (fun l h => TVal.noConfusion h) (fun l h => TVal.noConfusion h)]
      intro e he
      obtain ⟨ba, hba, rfl⟩ := List.mem_map.mp he
      exact plainBookEntry_clean db ba
  case v3 =>
    constructor
    · intro b _ r hr
      simp only [bookRespOf] at hr
      rw [v3BookResp_eq db hfk b] at hr
      injection hr with hr
      subst hr
      rw [allEntries_book _ _ _ (fun l h => TVal.noConfusion h) (fun l h => TVal.noConfusion h)]
      intro e he
      obtain ⟨ba, hba, rfl⟩ := List.mem_map.mp he
      exact mergedAuthorEntry_clean db ba
    · intro a _ r hr
      simp only [authorRespOf] at hr
      rw [v3AuthorResp_eq db hfk a] at hr
      injection hr with hr
      subst hr
      rw [allEntries_author _ _ _ (fun l h => TVal.noConfusion h) (fun l h => TVal.noConfusion h)]
      intro e he
      obtain ⟨ba, hba, rfl⟩ := List.mem_map.mp he
      exact mergedBookEntry_clean db ba
  case v4 =>
    constructor
    · intro b _ r hr
      simp only [bookRespOf] at hr
      rw [v4BookResp_eq db hfk b] at hr
      injection hr with hr
      subst hr
      rw [allEntries_book _ _ _ (fun l h => TVal.noConfusion h) (fun l h => TVal.noConfusion h)]
      intro e he
      obtain ⟨ba, hba, rfl⟩ := List.mem_map.mp he
      exact flatAuthorEntry_clean db ba
    · intro a _ r hr
      simp only [authorRespOf] at hr
      rw [v4AuthorResp_eq db hfk a] at hr
      injection hr with hr
      subst hr
      rw [allEntries_author _ _ _ (fun l h => TVal.noConfusion h) (fun l h => TVal.noConfusion h)]
      intro e he
      obtain ⟨ba, hba, rfl⟩ := List.mem_map.mp he
      exact flatBookEntry_clean db ba

/-- C6 witness: the variant-4 response for seeded book 1 (the variant that
starts from nested `author` sub-objects) exposes only flat entries with no
foreign keys and no sub-object. -/
theorem spec_C6_witness :
    seedDB.fkValid ∧
    (∀ e ∈ allEntries
        [("id", .prim (.num 1)),
         ("title", .prim (.str "Dead People Who\x27d Be Influencers Today")),
         ("authors", .arr
           [[("blurb", .prim (.str "Blue wrote chapter 1")),
             ("id", .prim (.num 1)), ("name", .prim (.str "Blu Renolds"))],
            [("blurb", .prim (.str "Chip wrote chapter 2")),
             ("id", .prim (.num 2)), ("name", .prim (.str "Chip Egan"))]])],
      e.lookup "book_id" = none ∧ e.lookup "author_id" = none ∧
      e.lookup "author" = none ∧ e.lookup "book" = none ∧
      ∀ kv ∈ e, kv.2.isFlat = true) :=
  ⟨by decide,
   (spec_C6 seedDB (by decide) .v4).1
     ⟨1, "Dead People Who\x27d Be Influencers Today"⟩ (by decide)
     [("id", .prim (.num 1)),
      ("title", .prim (.str "Dead People Who\x27d Be Influencers Today")),
      ("authors", .arr
        [[("blurb", .prim (.str "Blue wrote chapter 1")),
          ("id", .prim (.num 1)), ("name", .prim (.str "Blu Renolds"))],
         [("blurb", .prim (.str "Chip wrote chapter 2")),
          ("id", .prim (.num 2)), ("name", .prim (.str "Chip Egan"))]])]
     (by decide)⟩

/-- C7: no top-level Book or Author response object carries a `blurb` key
at its own level in any variant — including variant 1, whose base schema
declares a top-level blurb that the route's response_model_exclude
removes; blurb appears only inside list entries. -/
theorem spec_C7 (db : DB) (hfk : db.fkValid) (v : Variant) :
    (∀ b ∈ db.books, ∀ r : JObj, bookRespOf v db b = some r →
      r.lookup "blurb" = none) ∧
    (∀ a ∈ db.authors, ∀ r : JObj, authorRespOf v db a = some r →
      r.lookup "blurb" = none) := by
  cases v
  case v1 =>
    constructor
    · intro b _ r hr
      simp only [bookRespOf] at hr
      rw [v1BookResp_eq db hfk b] at hr
      injection hr with hr
      subst hr
      rfl
    · intro a _ r hr
      simp only [authorRespOf] at hr
      rw [v1AuthorResp_eq db hfk a] at hr
      injection hr with hr
      subst hr
      rfl
  case v2 =>
    constructor
    · intro b _ r hr
      simp only [bookRespOf] at hr
      injection hr with hr
      subst hr
      rw [v2BookResp_eq db hfk b]
      rfl
    · intro a _ r hr
      simp only [authorRespOf] at hr
      injection hr with hr
      subst hr
      rw [v2AuthorResp_eq db hfk a]
      rfl
  case v3 =>
    constructor
    · intro b _ r hr
      simp only [bookRespOf] at hr
      rw [v3BookResp_eq db hfk b] at hr
      injection hr with hr
      subst hr
      rfl
    · intro a _ r hr
      simp only [authorRespOf] at hr
      rw [v3AuthorResp_eq db hfk a] at hr
      injection hr with hr
      subst hr
      rfl
  case v4 =>
    constructor
    · intro b _ r hr
      simp only [bookRespOf] at hr
      rw [v4BookResp_eq db hfk b] at hr
      injection hr with hr
      subst hr
      rfl
    · intro a _ r hr
      simp only [authorRespOf] at hr
      rw [v4AuthorResp_eq db hfk a] at hr
      injection hr with hr
      subst hr
      rfl

/-- C7 witness: the variant-1 response for seeded book 1 — the variant
whose `BookBase` declares a top-level blurb — has no top-level blurb key. -/
theorem spec_C7_witness :
    seedDB.fkValid ∧
    (([("id", .prim (.num 1)),
       ("title", .prim (.str "Dead People Who\x27d Be Influencers Today")),
       ("authors", .arr
         [[("id", .prim (.num 1)), ("name", .prim (.str "Blu Renolds")),
           ("blurb", .prim (.str "Blue wrote chapter 1"))],
          [("id", .prim (.num 2)), ("name", .prim (.str "Chip Egan")),
           ("blurb", .prim (.str "Chip wrote chapter 2"))]])] : JObj).lookup "blurb"
      = none) :=
  ⟨by decide,
   (spec_C7 seedDB (by decide) .v1).1
     ⟨1, "Dead People Who\x27d Be Influencers Today"⟩ (by decide)
     [("id", .prim (.num 1)),
      ("title", .prim (.str "Dead People Who\x27d Be Influencers Today")),
      ("authors", .arr
        [[("id", .prim (.num 1)), ("name", .prim (.str "Blu Renolds")),
          ("blurb", .prim (.str "Blue wrote chapter 1"))],
         [("id", .prim (.num 2)), ("name", .prim (.str "Chip Egan")),
          ("blurb", .prim (.str "Chip wrote chapter 2"))]])]
     (by decide)⟩

/-- C4 counterexample: the claim says any two of the four variants return
the same shaped JSON body for every endpoint and id.  Variants 1 and 2
disagree on `GET /books/1` even up to key order: variant 2's entries lack
the blurb field. -/
theorem spec_C4_counterexample :
    respEquiv (get_book .v1 seedDB 1) (get_book .v2 seedDB 1) = false := by
  decide

/-- C4 (amended): over the seeded store, variants 1, 3 and 4 return
map-equal JSON responses for every endpoint and every id; variant 2
returns exactly the variant-1 response with the `blurb` key removed from
every list entry. -/
theorem spec_C4 (id : Int) :
    respEquiv (get_book .v1 seedDB id) (get_book .v3 seedDB id) = true ∧
    respEquiv (get_book .v3 seedDB id) (get_book .v4 seedDB id) = true ∧
    respEquiv (get_book .v2 seedDB id) (dropBlurb (get_book .v1 seedDB id)) = true ∧
    respEquiv (get_author .v1 seedDB id) (get_author .v3 seedDB id) = true ∧
    respEquiv (get_author .v3 seedDB id) (get_author .v4 seedDB id) = true ∧
    respEquiv (get_author .v2 seedDB id) (dropBlurb (get_author .v1 seedDB id)) = true ∧
    respEquiv (get_books .v1 seedDB) (get_books .v3 seedDB) = true ∧
    respEquiv (get_books .v3 seedDB) (get_books .v4 seedDB) = true ∧
    respEquiv (get_books .v2 seedDB) (dropBlurb (get_books .v1 seedDB)) = true ∧
    respEquiv (get_authors .v1 seedDB) (get_authors .v3 seedDB) = true ∧
    respEquiv (get_authors .v3 seedDB) (get_authors .v4 seedDB) = true ∧
    respEquiv (get_authors .v2 seedDB) (dropBlurb (get_authors .v1 seedDB)) = true := by
  by_cases h1 : id = 1
  · subst h1
    decide
  by_cases h2 : id = 2
  · subst h2
    decide
  by_cases h3 : id = 3
  · subst h3
    decide
  have hb1 : (seedDB.books.filter (fun b => b.id == id)).length ≠ 1 := by
    rw [seed_books_filter_nil id h1 h2]
    decide
  have ha1 : (seedDB.authors.filter (fun a => a.id == id)).length ≠ 1 := by
    rw [seed_authors_filter_nil id h1 h2 h3]
    decide
  rw [get_book_error .v1 _ _ hb1, get_book_error .v2 _ _ hb1,
      get_book_error .v3 _ _ hb1, get_book_error .v4 _ _ hb1,
      get_author_error .v1 _ _ ha1, get_author_error .v2 _ _ ha1,
      get_author_error .v3 _ _ ha1, get_author_error .v4 _ _ ha1]
  decide

end Bookipedia
